import Mathlib

/-
Verification of the Gerber / Excellon decoding core of 2D3Dgerber.py.

The Python source is shallowly embedded below.  Text lines are `List Char`;
real arithmetic is modelled exactly over `ℚ` (Python floats on the inputs
appearing in the claims are exact decimal values).  Qt graphics objects are
modelled by the data that determines them (endpoints / centers / widths);
the Qt stroker and painter-path machinery is outside the repository and
only its parameters are tracked.  `open()` failure is modelled by an
`Option` input (`none` = unreadable file); an uncaught Python exception is
`Except.error`.
-/

namespace Gerber

/-! ## String and character utilities (Python str helpers used by the source) -/

/-- ASCII upper-casing of one character, as `str.upper()` does on the
ASCII subset exercised by the parsers. -/
def upperC (c : Char) : Char :=
  if 'a' ≤ c ∧ c ≤ 'z' then Char.ofNat (c.toNat - 32) else c

def upperL (l : List Char) : List Char := l.map upperC

/-- `str.strip()`: drop leading and trailing whitespace. -/
def stripL (l : List Char) : List Char :=
  ((l.dropWhile Char.isWhitespace).reverse.dropWhile Char.isWhitespace).reverse

/-- `str.startswith(pre)`. -/
def startsWithL : List Char → List Char → Bool
  | [], _ => true
  | _ :: _, [] => false
  | p :: ps, c :: cs => p == c && startsWithL ps cs

/-- `needle in haystack` (substring containment). -/
def hasSubL (needle : List Char) : List Char → Bool
  | [] => startsWithL needle []
  | l@(_ :: rest) => startsWithL needle l || hasSubL needle rest

/-! ## Numeric token parsing -/

/-- Value of a digit string, as Python `int` on a digit run. -/
def parseNatL (l : List Char) : ℕ :=
  l.foldl (fun a c => a * 10 + (c.toNat - 48)) 0

/-- Signed integer value: `int(val)` where `val` is an optional sign
followed by the digit run `ds`. -/
def signedIntVal (neg : Bool) (ds : List Char) : ℤ :=
  if neg then -(parseNatL ds : ℤ) else (parseNatL ds : ℤ)

def applySign (neg : Bool) (q : ℚ) : ℚ := if neg then -q else q

/-- Python `float(s)` on the plain decimal forms produced by the regexes of
the source (optional sign, digits, optional dot and digits); `none` models
a `ValueError`. -/
def parseDecimal (l : List Char) : Option ℚ :=
  let sr : Bool × List Char :=
    match l with
    | '-' :: r => (true, r)
    | '+' :: r => (false, r)
    | r => (false, r)
  let neg := sr.1
  let r := sr.2
  let ip := r.takeWhile Char.isDigit
  let r2 := r.drop ip.length
  match r2 with
  | [] => if ip.isEmpty then none else some (applySign neg (parseNatL ip : ℚ))
  | '.' :: r3 =>
    let fp := r3.takeWhile Char.isDigit
    if ¬ (r3.drop fp.length).isEmpty then none
    else if ip.isEmpty ∧ fp.isEmpty then none
    else some (applySign neg
      (((parseNatL ip : ℚ) * 10 ^ fp.length + (parseNatL fp : ℚ)) / 10 ^ fp.length))
  | _ => none

/-! ## Gerber command-stream interpreter (`GerberViewer.parse_gerber`, src lines 2280-2429) -/

/-- Interpolation mode (`interpolation_mode` local of `parse_gerber`). -/
inductive Interp | linear | cw | ccw
deriving DecidableEq, Repr

/-- Geometry items appended to `items` by `parse_gerber`, identified by the
data that determines them.  A stroked segment keeps its endpoints and the
stroker width; a stroked arc keeps endpoints, center, direction and width;
a region keeps its painter-path vertices; flashes keep center and sizes. -/
inductive GItem
  | stroke (p1 p2 : ℚ × ℚ) (width : ℚ)
  | arc (p1 p2 center : ℚ × ℚ) (cw : Bool) (width : ℚ)
  | region (pts : List (ℚ × ℚ))
  | ellipse (center : ℚ × ℚ) (size : ℚ)
  | rect (center : ℚ × ℚ) (w h : ℚ)
  | obround (center : ℚ × ℚ) (w h : ℚ)
deriving DecidableEq, Repr

/-- Interpreter state during one `parse_gerber` call: the instance fields
`self.dec_d`, `self.aperture_macros`, `self.current_pos`,
`self.current_aperture` together with the local variables of the call. -/
structure GerberState where
  dec_d : ℕ
  unitfactor : ℚ
  interp : Interp
  aperture_macros : List (ℕ × Char × List ℚ)
  current_pos : ℚ × ℚ
  current_aperture : Option ℕ
  polygon_mode : Bool
  polygon_path : Option (List (ℚ × ℚ))
deriving DecidableEq, Repr

/-- Lookup of `re.search(r'X(\d)(\d)', line)` group 2 on a `%FSLA` line:
the first `X` followed by two digits, yielding the second digit. -/
def fslaDec : List Char → Option ℕ
  | [] => none
  | c :: rest =>
    if c = 'X' then
      match rest with
      | a :: b :: _ => if a.isDigit ∧ b.isDigit then some (b.toNat - 48) else fslaDec rest
      | _ => fslaDec rest
    else fslaDec rest

/-- `re.search(r'D0?d\*?', line)` for a digit `d`: is there a `D`,
optionally followed by `0`, followed by `d`? -/
def searchDmode (d : Char) : List Char → Bool
  | [] => false
  | c :: rest =>
    (c == 'D' &&
      ((match rest with | a :: _ => a == d | [] => false) ||
       (match rest with | a :: b :: _ => a == '0' && b == d | _ => false)))
    || searchDmode d rest

/-- `re.search(r'D0?(\d+)\*?', line)`: first `D` followed by at least one
digit; the numeric value of the captured digits equals the value of the
whole digit run after the `D` (dropping one leading zero never changes
`int(...)`). -/
def searchDcode : List Char → Option ℕ
  | [] => none
  | c :: rest =>
    if c = 'D' then
      let ds := rest.takeWhile Char.isDigit
      if ds.isEmpty then searchDcode rest else some (parseNatL ds)
    else searchDcode rest

/-- One step of `re.findall(r'([XYIJ])(-?\d+)', line)`: grab `-?\d+`
right after an axis letter. -/
def grabInt (l : List Char) : Option ℤ :=
  let nr : Bool × List Char :=
    match l with
    | '-' :: r => (true, r)
    | r => (false, r)
  let ds := nr.2.takeWhile Char.isDigit
  if ds.isEmpty then none else some (signedIntVal nr.1 ds)

/-- `re.findall(r'([XYIJ])(-?\d+)', line)`, in scan order.  Scanning may
restart inside a previous match: harmless, since signs and digits are not
axis letters, so no spurious match can begin there. -/
def findallXYIJ : List Char → List (Char × ℤ)
  | [] => []
  | c :: rest =>
    (if c = 'X' ∨ c = 'Y' ∨ c = 'I' ∨ c = 'J' then
      match grabInt rest with
      | some n => [(c, n)]
      | none => []
     else []) ++ findallXYIJ rest

/-- Coordinate/unit resolution (src line 2352):
`int(num_s) / (10 ** self.dec_d) * unitfactor`. -/
def resolveCoord (dec_d : ℕ) (unitfactor : ℚ) (n : ℤ) : ℚ :=
  (n : ℚ) / 10 ^ dec_d * unitfactor

/-- The `vals` dict of `parse_gerber`, with values already resolved. -/
def gerber_vals (dec_d : ℕ) (unitfactor : ℚ) (line : List Char) : List (Char × ℚ) :=
  (findallXYIJ line).map (fun p => (p.1, resolveCoord dec_d unitfactor p.2))

/-- `vals.get(axis, default)`; the Python dict keeps the last binding of a
key, hence the lookup on the reversed association list. -/
def vals_get (vals : List (Char × ℚ)) (axis : Char) (dflt : ℚ) : ℚ :=
  match vals.reverse.lookup axis with
  | some v => v
  | none => dflt

/-- `code in self.aperture_macros`. -/
def containsKey (l : List (ℕ × Char × List ℚ)) (k : ℕ) : Bool :=
  l.any (fun p => p.1 == k)

/-- `GerberViewer._get_aperture_width` (src lines 2433-2440).  Note the
Python falsiness test `not self.current_aperture` also catches aperture
code 0, and that the returned width is `params[0] / 2` (the radius). -/
def get_aperture_width (st : GerberState) : ℚ :=
  match st.current_aperture with
  | none => 1/5
  | some c =>
    if c = 0 then 1/5
    else
      match st.aperture_macros.lookup c with
      | none => 1/5
      | some sp =>
        match sp.2 with
        | [] => 1/5
        | p :: _ => p / 2

/-- Content before the last occurrence of `*%` (at index ≥ 1), i.e. the
`(.+)` group of `re.match(r'%ADD(\d+)([A-Z]),(.+)\*%', line)` after the
comma. -/
def beforeLastStarPct (l : List Char) : Option (List Char) :=
  (((List.range l.length).filter fun i =>
      1 ≤ i ∧ l.getD i ' ' = '*' ∧ l.getD (i + 1) ' ' = '%').getLast?).map l.take

/-- `re.split('[Xx]', s)`. -/
def splitXx (l : List Char) : List (List Char) :=
  match l with
  | [] => [[]]
  | c :: rest =>
    if c = 'X' ∨ c = 'x' then [] :: splitXx rest
    else
      match splitXx rest with
      | [] => [[c]]
      | piece :: more => (c :: piece) :: more

/-- `re.match(r'%ADD(\d+)([A-Z]),(.+)\*%', line)`: code, shape letter, and
raw parameter text. -/
def parseADD (line : List Char) : Option (ℕ × Char × List Char) :=
  if startsWithL "%ADD".toList line then
    let r := line.drop 4
    let ds := r.takeWhile Char.isDigit
    if ds.isEmpty then none
    else
      match r.drop ds.length with
      | sh :: ',' :: rest =>
        if 'A' ≤ sh ∧ sh ≤ 'Z' then
          match beforeLastStarPct rest with
          | some body => some (parseNatL ds, sh, body)
          | none => none
        else none
      | _ => none
  else none

/-- Aperture-definition handling (src lines 2312-2324): parsed parameters
are scaled by the unit factor; unparsable pieces are skipped; an empty
parameter list falls back to `[0.2 * unitfactor]`. -/
def applyADD (st : GerberState) (line : List Char) : GerberState :=
  match parseADD line with
  | none => st
  | some csr =>
    let params := (splitXx csr.2.2).filterMap
      (fun p => (parseDecimal (stripL p)).map (· * st.unitfactor))
    let params := if params.isEmpty then [(1/5 : ℚ) * st.unitfactor] else params
    { st with aperture_macros := (csr.1, csr.2.1, params) :: st.aperture_macros }

/-- Squared distance from start to center: `radius == 0` in
`_create_arc_path` (src lines 2446-2447) holds iff this is zero. -/
def arcRadiusSq (start center : ℚ × ℚ) : ℚ :=
  (start.1 - center.1) ^ 2 + (start.2 - center.2) ^ 2

/-- Flash emission (src lines 2393-2415).  `scene_factor` is the
`scene_factor` argument of `parse_gerber`. -/
def flashItems (sf : ℚ) (st : GerberState) (pos : ℚ × ℚ) : List GItem :=
  let dfl : List GItem := [GItem.ellipse pos ((1/5) * sf)]
  match st.current_aperture with
  | none => dfl
  | some c =>
    if c = 0 then dfl
    else
      match st.aperture_macros.lookup c with
      | none => dfl
      | some sp =>
        let params := sp.2
        if sp.1 = 'C' then [GItem.ellipse pos (params.headD 0 * sf)]
        else if sp.1 = 'R' then
          let w := params.headD 0 * sf
          let h := if 1 < params.length then params.getD 1 0 * sf else w
          [GItem.rect pos w h]
        else if sp.1 = 'O' then
          let w := params.headD 0 * sf
          let h := if 1 < params.length then params.getD 1 0 * sf else w
          [GItem.obround pos w h]
        else []

/-- One iteration of the `for raw in f` loop of `parse_gerber`
(src lines 2291-2415), returning the updated state and the items emitted
by this line. -/
def gerberStep (sf : ℚ) (st : GerberState) (raw : List Char) : GerberState × List GItem :=
  let line := stripL raw
  if startsWithL "%FSLA".toList line then
    ({ st with dec_d := (fslaDec line).getD st.dec_d }, [])
  else if startsWithL "%MO".toList line then
    ({ st with unitfactor := if hasSubL "IN".toList (upperL line) then (254 : ℚ)/10 else 1 }, [])
  else
    let st :=
      if startsWithL "G01".toList line then { st with interp := Interp.linear }
      else if startsWithL "G02".toList line then { st with interp := Interp.cw }
      else if startsWithL "G03".toList line then { st with interp := Interp.ccw }
      else st
    if startsWithL "%ADD".toList line then (applyADD st line, [])
    else
      let st :=
        if startsWithL "G36".toList line then
          { st with polygon_mode := true, polygon_path := some [] }
        else st
      let stOut : GerberState × List GItem :=
        if startsWithL "G37".toList line then
          match st.polygon_path with
          | some pts =>
            if ¬ pts.isEmpty then
              ({ st with polygon_mode := false }, [GItem.region (pts ++ pts.take 1)])
            else ({ st with polygon_mode := false }, [])
          | none => ({ st with polygon_mode := false }, [])
        else (st, [])
      let st := stOut.1
      let out0 := stOut.2
      if line.isEmpty || startsWithL "%".toList line || startsWithL "G04".toList line then
        (st, out0)
      else
        let mode : Option ℕ :=
          if searchDmode '3' line then some 3
          else if searchDmode '2' line then some 2
          else if searchDmode '1' line then some 1
          else none
        let st :=
          match searchDcode line with
          | some code =>
            if containsKey st.aperture_macros code then { st with current_aperture := some code }
            else st
          | none => st
        let vals := gerber_vals st.dec_d st.unitfactor line
        let x := vals_get vals 'X' st.current_pos.1
        let y := vals_get vals 'Y' st.current_pos.2
        let newPos : ℚ × ℚ := (x, y)
        match mode with
        | some 2 =>
          let st := { st with current_pos := newPos }
          let st :=
            if st.polygon_mode then
              match st.polygon_path with
              | some [] => { st with polygon_path := some [newPos] }
              | _ => st
            else st
          (st, out0)
        | some 1 =>
          if st.polygon_mode ∧ st.polygon_path.isSome then
            let lineTo := fun (pts : List (ℚ × ℚ)) =>
              if pts.isEmpty then [((0 : ℚ), (0 : ℚ)), newPos] else pts ++ [newPos]
            let st := { st with polygon_path := st.polygon_path.map lineTo }
            ({ st with current_pos := newPos }, out0)
          else
            let out : List GItem :=
              if st.interp = Interp.cw ∨ st.interp = Interp.ccw then
                let i := vals_get vals 'I' 0
                let j := vals_get vals 'J' 0
                let center : ℚ × ℚ := (st.current_pos.1 + i, st.current_pos.2 + j)
                if arcRadiusSq st.current_pos center = 0 then []
                else [GItem.arc st.current_pos newPos center (st.interp = Interp.cw)
                        (get_aperture_width st * sf)]
              else
                [GItem.stroke st.current_pos newPos (get_aperture_width st * sf)]
            ({ st with current_pos := newPos }, out0 ++ out)
        | some 3 =>
          (({ st with current_pos := newPos }), out0 ++ flashItems sf st newPos)
        | _ => (st, out0)

/-- The final Y-flip (src lines 2417-2428): painter paths are mapped by
`scale(1, -1)`, graphics items get the same transform. -/
def flipPoint (p : ℚ × ℚ) : ℚ × ℚ := (p.1, -p.2)

def flipItem : GItem → GItem
  | GItem.stroke a b w => GItem.stroke (flipPoint a) (flipPoint b) w
  | GItem.arc a b c cw w => GItem.arc (flipPoint a) (flipPoint b) (flipPoint c) cw w
  | GItem.region pts => GItem.region (pts.map flipPoint)
  | GItem.ellipse c s => GItem.ellipse (flipPoint c) s
  | GItem.rect c w h => GItem.rect (flipPoint c) w h
  | GItem.obround c w h => GItem.obround (flipPoint c) w h

/-- The instance fields of `GerberViewer` that survive between parse
calls (src lines 525-528): `self.dec_d`, `self.aperture_macros`,
`self.current_pos`, `self.current_aperture`. -/
structure Session where
  dec_d : ℕ
  aperture_macros : List (ℕ × Char × List ℚ)
  current_pos : ℚ × ℚ
  current_aperture : Option ℕ
deriving DecidableEq, Repr

/-- `GerberViewer.__init__` state (src line 525): `self.dec_d = 5`, empty
aperture table, origin position, no aperture. -/
def init_session : Session :=
  { dec_d := 5, aperture_macros := [], current_pos := (0, 0), current_aperture := none }

/-- `GerberViewer.parse_gerber(filepath, scene_factor)` (src lines
2280-2429).  `file = none` models an unreadable file: the instance resets
of lines 2281-2283 happen before `open`, and the `IOError` of line 2290
is not caught, so it escapes as `Except.error`.  Note that `self.dec_d`
is NOT reset at the start of the call. -/
def parse_gerber (s : Session) (file : Option (List (List Char))) (scene_factor : ℚ) :
    Session × Except Unit (List GItem) :=
  let s := { s with aperture_macros := [], current_pos := (0, 0), current_aperture := none }
  match file with
  | none => (s, Except.error ())
  | some lines =>
    let st0 : GerberState :=
      { dec_d := s.dec_d, unitfactor := 1, interp := Interp.linear, aperture_macros := [],
        current_pos := (0, 0), current_aperture := none, polygon_mode := false,
        polygon_path := none }
    let fin := lines.foldl
      (fun (acc : GerberState × List GItem) l =>
        let r := gerberStep scene_factor acc.1 l
        (r.1, acc.2 ++ r.2))
      (st0, [])
    let s1 : Session :=
      { dec_d := fin.1.dec_d, aperture_macros := fin.1.aperture_macros, current_pos := fin.1.current_pos, current_aperture := fin.1.current_aperture }
    (s1, Except.ok (fin.2.map flipItem))

/-! ## Arc resolver (`GerberViewer._create_arc_path`, src lines 2443-2458) -/

/-- The sweep computation of `_create_arc_path` (src lines 2450-2453),
on angles already normalized to [0, 360) by `degrees(atan2(...)) % 360`:
clockwise: `(angle2 - angle1 - 360) if angle2 > angle1 else (angle2 - angle1)`;
counter-clockwise: `(angle2 - angle1 + 360) if angle1 > angle2 else (angle2 - angle1)`. -/
def sweep_angle (clockwise : Bool) (angle1 angle2 : ℚ) : ℚ :=
  if clockwise then
    if angle1 < angle2 then angle2 - angle1 - 360 else angle2 - angle1
  else
    if angle2 < angle1 then angle2 - angle1 + 360 else angle2 - angle1

/-! ## Excellon drill interpreter (`GerberViewer.parse_drill`, src lines 2464-2602) -/

/-- A drill hit: `QGraphicsEllipseItem` centered at the resolved position,
with the Y-flip of src lines 2581-2583 applied, paired with the tool
diameter. -/
def Hit := (ℚ × ℚ) × ℚ
deriving DecidableEq, Repr

/-- Modal state of one `parse_drill` call (locals of src lines 2465-2480). -/
structure DrillState where
  drill_decimals : ℕ
  unitfactor : ℚ
  incremental_mode : Bool
  drill_tools : List (ℕ × ℚ)
  current_tool : Option ℕ
  current_pos : ℚ × ℚ
deriving DecidableEq, Repr

/-- `re.search(r'FORMAT\s*=\s*(\d+)\.(\d+)', uline)` attempted at the head
of the list: the number of decimal places (group 2). -/
def formatAt (l : List Char) : Option ℕ :=
  if startsWithL "FORMAT".toList l then
    let r := (l.drop 6).dropWhile Char.isWhitespace
    match r with
    | '=' :: r2 =>
      let r3 := r2.dropWhile Char.isWhitespace
      let d1 := r3.takeWhile Char.isDigit
      if d1.isEmpty then none
      else
        match r3.drop d1.length with
        | '.' :: r4 =>
          let d2 := r4.takeWhile Char.isDigit
          if d2.isEmpty then none else some (parseNatL d2)
        | _ => none
    | _ => none
  else none

/-- `re.search` of the FORMAT pattern over the whole line: first match. -/
def findFormat : List Char → Option ℕ
  | [] => formatAt []
  | l@(_ :: rest) =>
    match formatAt l with
    | some d => some d
    | none => findFormat rest

/-- Decimal-place update of src lines 2510-2514: an explicit
`FORMAT=I.D` declaration overrides the current count. -/
def drill_format_update (cur : ℕ) (uline : List Char) : ℕ :=
  match findFormat uline with
  | some d => d
  | none => cur

/-- Bare-integer coordinate conversion (src lines 2539-2553): `ds` is the
digit run after the optional sign (`clean_val`); a 6-digit run uses 4
decimal places unconditionally, otherwise the active count is used. -/
def drill_bare_value (drill_decimals : ℕ) (neg : Bool) (ds : List Char) : ℚ :=
  let temp_decimals := if ds.length = 6 then 4 else drill_decimals
  (signedIntVal neg ds : ℚ) / 10 ^ temp_decimals

/-- One step of `re.findall(r'([XY])([+-]?[0-9]*\.[0-9]+)', line, re.IGNORECASE)`:
grab an explicit-decimal number right after an axis letter. -/
def grabDec (l : List Char) : Option ℚ :=
  let nr : Bool × List Char :=
    match l with
    | '-' :: r => (true, r)
    | '+' :: r => (false, r)
    | r => (false, r)
  let ip := nr.2.takeWhile Char.isDigit
  match nr.2.drop ip.length with
  | '.' :: r3 =>
    let fp := r3.takeWhile Char.isDigit
    if fp.isEmpty then none
    else some (applySign nr.1
      (((parseNatL ip : ℚ) * 10 ^ fp.length + (parseNatL fp : ℚ)) / 10 ^ fp.length))
  | _ => none

/-- Explicit-decimal coordinate extraction (src lines 2533-2534), with
case-insensitive axis letters, in scan order.  As with `findallXYIJ`,
re-scanning inside a matched number is harmless. -/
def findallXYdec : List Char → List (Char × ℚ)
  | [] => []
  | c :: rest =>
    (if c = 'X' ∨ c = 'x' ∨ c = 'Y' ∨ c = 'y' then
      match grabDec rest with
      | some v => [(upperC c, v)]
      | none => []
     else []) ++ findallXYdec rest

/-- One step of `re.findall(r'([XY])([+-]?[0-9]+)', line, re.IGNORECASE)`:
sign and digit run. -/
def grabSignInt (l : List Char) : Option (Bool × List Char) :=
  let nr : Bool × List Char :=
    match l with
    | '-' :: r => (true, r)
    | '+' :: r => (false, r)
    | r => (false, r)
  let ds := nr.2.takeWhile Char.isDigit
  if ds.isEmpty then none else some (nr.1, ds)

/-- Bare-integer coordinate extraction (src lines 2538-2553), already
converted by `drill_bare_value`. -/
def findallXYbare (drill_decimals : ℕ) : List Char → List (Char × ℚ)
  | [] => []
  | c :: rest =>
    (if c = 'X' ∨ c = 'x' ∨ c = 'Y' ∨ c = 'y' then
      match grabSignInt rest with
      | some sd => [(upperC c, drill_bare_value drill_decimals sd.1 sd.2)]
      | none => []
     else []) ++ findallXYbare drill_decimals rest

/-- The two coordinate-extraction strategies of src lines 2530-2553:
explicit decimal point first; bare integers only if no explicit-decimal
token was found on the line. -/
def drillCoords (drill_decimals : ℕ) (line : List Char) : List (Char × ℚ) :=
  let explicit := findallXYdec line
  if ¬ explicit.isEmpty then explicit else findallXYbare drill_decimals line

/-- `re.match(r'^T0*(\d+)\s*C\s*([0-9.]+)', uline)` (src line 2517): tool
id and the raw `[0-9.]+` text of the diameter. -/
def toolDefScan (uline : List Char) : Option (ℕ × List Char) :=
  match uline with
  | 'T' :: rest =>
    let ds := rest.takeWhile Char.isDigit
    if ds.isEmpty then none
    else
      let r1 := (rest.drop ds.length).dropWhile Char.isWhitespace
      match r1 with
      | 'C' :: r2 =>
        let r3 := r2.dropWhile Char.isWhitespace
        let num := r3.takeWhile (fun c => c.isDigit || c == '.')
        if num.isEmpty then none else some (parseNatL ds, num)
      | _ => none
  | _ => none

/-- `re.match(r'^T0*(\d+)', uline)` (src line 2525). -/
def toolSelScan (uline : List Char) : Option ℕ :=
  match uline with
  | 'T' :: rest =>
    let ds := rest.takeWhile Char.isDigit
    if ds.isEmpty then none else some (parseNatL ds)
  | _ => none

/-- One iteration of the `for line in f` loop of `parse_drill`
(src lines 2484-2589).  `Except.error` models an uncaught exception
inside the loop (only `float()` on a malformed tool diameter can raise,
src line 2520); it is caught by the surrounding `try` of `parse_drill`. -/
def drillStep (st : DrillState) (raw : List Char) : Except Unit (DrillState × List Hit) :=
  let uline := upperL (stripL raw)
  if startsWithL ";".toList uline || startsWithL "M48".toList uline || uline = ['%'] then
    Except.ok (st, [])
  else
    let st :=
      if hasSubL "METRIC".toList uline || hasSubL "MM".toList uline then
        { st with unitfactor := 1 }
      else if hasSubL "INCH".toList uline then { st with unitfactor := (254 : ℚ)/10 }
      else st
    let st :=
      if hasSubL "G90".toList uline then { st with incremental_mode := false }
      else if hasSubL "G91".toList uline || hasSubL "M95".toList uline then
        { st with incremental_mode := true }
      else st
    let st := { st with drill_decimals := drill_format_update st.drill_decimals uline }
    let stE : Except Unit DrillState :=
      match toolDefScan uline with
      | none => Except.ok st
      | some idnum =>
        match parseDecimal idnum.2 with
        | none => Except.error ()
        | some dia =>
          Except.ok { st with drill_tools := (idnum.1, dia * st.unitfactor) :: st.drill_tools }
    match stE with
    | Except.error e => Except.error e
    | Except.ok st =>
      let st :=
        if startsWithL "T".toList uline ∧ ¬ hasSubL "C".toList uline then
          match toolSelScan uline with
          | some tid => { st with current_tool := some tid }
          | none => st
        else st
      let coords := drillCoords st.drill_decimals raw
      if coords.isEmpty then Except.ok (st, [])
      else
        let xopt := coords.reverse.lookup 'X'
        let yopt := coords.reverse.lookup 'Y'
        let x_move := xopt.getD 0
        let y_move := yopt.getD 0
        let xy : ℚ × ℚ :=
          if st.incremental_mode then
            (st.current_pos.1 + st.unitfactor * x_move, st.current_pos.2 + st.unitfactor * y_move)
          else
            (if xopt.isSome then st.unitfactor * x_move else st.current_pos.1,
             if yopt.isSome then st.unitfactor * y_move else st.current_pos.2)
        let st := { st with current_pos := xy }
        let hits : List Hit :=
          match st.current_tool with
          | none => []
          | some t =>
            match st.drill_tools.lookup t with
            | none => []
            | some dia => if 0 < dia then [((xy.1, -xy.2), dia)] else []
        Except.ok (st, hits)

/-- `GerberViewer.parse_drill(filepath)` (src lines 2464-2602): fresh
local state except `drill_decimals`, which is seeded from `self.dec_d`
(src line 2472); the default unit is inch (factor 25.4).  The whole body
sits in `try: ... except: return []`, and an unreadable file (`none`)
raises inside the `try`, so all failures yield `[]`. -/
def parse_drill (s : Session) (file : Option (List (List Char))) : List Hit :=
  match file with
  | none => []
  | some lines =>
    let st0 : DrillState :=
      { drill_decimals := s.dec_d, unitfactor := (254 : ℚ)/10, incremental_mode := false,
        drill_tools := [], current_tool := none, current_pos := (0, 0) }
    let run := lines.foldlM (m := Except Unit)
      (fun (acc : DrillState × List Hit) l =>
        (drillStep acc.1 l).map (fun r => (r.1, acc.2 ++ r.2)))
      (st0, [])
    match run with
    | Except.ok fin => fin.2
    | Except.error _ => []

/-! ## Geometry extractor / polygonizer
(`GerberViewer._extract_polygons_from_items`, src lines 1110-1235)

A polygon is its coordinate ring, a `List (ℚ × ℚ)`.  Shapely's validity
notion for the rings arising here is simplicity: implemented below as an
exact segment-intersection test.  `buffer(0)` (the repair pass) and
`unary_union` are shapely library calls outside this repository; they are
parameters of the embedding, constrained only where a claim needs their
documented behaviour. -/

/-- Twice the signed area of the triangle `p q r` (orientation test). -/
def orient2 (p q r : ℚ × ℚ) : ℚ :=
  (q.1 - p.1) * (r.2 - p.2) - (q.2 - p.2) * (r.1 - p.1)

/-- `r` lies on the closed segment `p q`. -/
def onSegment (p q r : ℚ × ℚ) : Bool :=
  decide (orient2 p q r = 0) && decide (min p.1 q.1 ≤ r.1) && decide (r.1 ≤ max p.1 q.1) &&
    decide (min p.2 q.2 ≤ r.2) && decide (r.2 ≤ max p.2 q.2)

/-- The closed segments `p1 p2` and `q1 q2` share at least one point. -/
def segsIntersect (p1 p2 q1 q2 : ℚ × ℚ) : Bool :=
  let d1 := orient2 q1 q2 p1
  let d2 := orient2 q1 q2 p2
  let d3 := orient2 p1 p2 q1
  let d4 := orient2 p1 p2 q2
  (((decide (0 < d1) && decide (d2 < 0)) || (decide (d1 < 0) && decide (0 < d2))) &&
   ((decide (0 < d3) && decide (d4 < 0)) || (decide (d3 < 0) && decide (0 < d4))))
  || onSegment q1 q2 p1 || onSegment q1 q2 p2 || onSegment p1 p2 q1 || onSegment p1 p2 q2

/-- Consecutive-vertex segments of a ring (for a closed ring of `n + 1`
stored vertices these are its `n` edges). -/
def ringSegments (ring : List (ℚ × ℚ)) : List ((ℚ × ℚ) × (ℚ × ℚ)) :=
  ring.zip ring.tail

/-- Non-adjacent edges of the ring must be disjoint. -/
def nonAdjPairsOk (ring : List (ℚ × ℚ)) : Bool :=
  let segs := ringSegments ring
  let m := segs.length
  (List.range m).all fun i => (List.range m).all fun j =>
    if i + 1 < j ∧ ¬(i = 0 ∧ j = m - 1) then
      let a := segs.getD i ((0, 0), (0, 0))
      let b := segs.getD j ((0, 0), (0, 0))
      !(segsIntersect a.1 a.2 b.1 b.2)
    else true

/-- Adjacent edges of the ring may meet only at their shared vertex (no
collinear spike back along the previous edge). -/
def adjPairsOk (ring : List (ℚ × ℚ)) : Bool :=
  let m := ring.length - 1
  (List.range m).all fun i =>
    let a := ring.getD i (0, 0)
    let b := ring.getD (i + 1) (0, 0)
    let c := ring.getD ((i + 1) % m + 1) (0, 0)
    !(onSegment a b c) && !(onSegment b c a)

/-- Shapely validity (`poly.is_valid`) of a coordinate ring, for the
simple-polygon rings this program builds: explicitly closed, at least
three distinct-slot vertices, and simple (no self-intersection). -/
def ring_is_valid (ring : List (ℚ × ℚ)) : Bool :=
  decide (4 ≤ ring.length) && decide (ring.head? = ring.getLast?) &&
    nonAdjPairsOk ring && adjPairsOk ring

/-- Shoelace sum over the ring's edges. -/
def shoelace (ring : List (ℚ × ℚ)) : ℚ :=
  (ringSegments ring).foldl (fun acc s => acc + (s.1.1 * s.2.2 - s.2.1 * s.1.2)) 0

/-- `poly.area`: absolute enclosed area of a closed ring. -/
def polyArea (ring : List (ℚ × ℚ)) : ℚ := |shoelace ring| / 2

/-- The `1e-9` area threshold of src lines 1126 and 1229. -/
def area_eps : ℚ := 1 / 1000000000

/-- The closing step of `coords_close_and_fix` (src lines 1120-1121):
`if coords[0] != coords[-1]: coords.append(coords[0])`. -/
def closeRing (coords : List (ℚ × ℚ)) : List (ℚ × ℚ) :=
  if coords.head? = coords.getLast? then coords else coords ++ coords.take 1

/-- The repair step (src lines 1124-1125): `if not poly.is_valid:
poly = poly.buffer(0)`, with `buffer(0)` as the `repair` parameter. -/
def repairIfInvalid (repair : List (ℚ × ℚ) → List (ℚ × ℚ))
    (ring : List (ℚ × ℚ)) : List (ℚ × ℚ) :=
  if ring_is_valid ring then ring else repair ring

/-- The acceptance guard (src lines 1126-1130): keep the polygon only if
it is valid, non-empty, and has area above the threshold. -/
def ccf_accept (poly : List (ℚ × ℚ)) : Option (List (ℚ × ℚ)) :=
  if ring_is_valid poly ∧ poly ≠ [] ∧ area_eps < polyArea poly then some poly else none

/-- `coords_close_and_fix` (src lines 1117-1130): close the ring if open,
repair if invalid, and accept only valid, non-empty rings with area above
the threshold. -/
def coords_close_and_fix (repair : List (ℚ × ℚ) → List (ℚ × ℚ))
    (coords : List (ℚ × ℚ)) : Option (List (ℚ × ℚ)) :=
  if coords.length < 3 then none
  else ccf_accept (repairIfInvalid repair (closeRing coords))

/-- Result of `unary_union` (src line 1222): a shapely call outside this
repository, represented by its four observable outcomes (including a
raised exception, src lines 1231-1233). -/
inductive UnionResult
  | empty
  | single (p : List (ℚ × ℚ))
  | multi (ps : List (List (ℚ × ℚ)))
  | uerror
deriving DecidableEq, Repr

/-- The merge block of src lines 1219-1235: an empty union yields `[]`; a
single polygon is returned as-is; a multi-polygon is filtered by the area
threshold; a raised exception returns the accepted polygons unchanged. -/
def union_finalize (polys : List (List (ℚ × ℚ))) (u : UnionResult) : List (List (ℚ × ℚ)) :=
  match u with
  | UnionResult.empty => []
  | UnionResult.single p => [p]
  | UnionResult.multi ps => ps.filter (fun p => decide (area_eps < polyArea p))
  | UnionResult.uerror => polys

/-- The `polys` list accumulated by the per-item loop: every ring that
`coords_close_and_fix` accepts. -/
def accepted_polys (repair : List (ℚ × ℚ) → List (ℚ × ℚ))
    (rings : List (List (ℚ × ℚ))) : List (List (ℚ × ℚ)) :=
  rings.filterMap (coords_close_and_fix repair)

/-- `_extract_polygons_from_items` restricted to what it does with
coordinate rings: every ring obtained from an item passes through
`coords_close_and_fix`, then the accepted polygons are merged
(src lines 1219-1235).  The per-item coordinate extraction (circle
sampling, rectangle corners, path vertices) only produces the input
rings and is abstracted by the `rings` argument. -/
def extract_polygons_from_items (repair : List (ℚ × ℚ) → List (ℚ × ℚ))
    (union : List (List (ℚ × ℚ)) → UnionResult)
    (rings : List (List (ℚ × ℚ))) : List (List (ℚ × ℚ)) :=
  if (accepted_polys repair rings).isEmpty then accepted_polys repair rings
  else
    union_finalize (accepted_polys repair rings)
      (union ((accepted_polys repair rings).filter (fun p => ring_is_valid p && !p.isEmpty)))

/-! ## Concrete inputs used by the claims -/

instance {ε α : Type} [DecidableEq ε] [DecidableEq α] : DecidableEq (Except ε α) := fun a b =>
  match a, b with
  | Except.ok x, Except.ok y =>
    if h : x = y then isTrue (by rw [h]) else isFalse (by intro hh; cases hh; exact h rfl)
  | Except.error x, Except.error y =>
    if h : x = y then isTrue (by rw [h]) else isFalse (by intro hh; cases hh; exact h rfl)
  | Except.ok _, Except.error _ => isFalse (by intro h; cases h)
  | Except.error _, Except.ok _ => isFalse (by intro h; cases h)

/-- End-to-end scenario A of the spec. -/
def scenarioA : List (List Char) :=
  ["%FSLAX25Y25*%".toList, "%MOMM*%".toList, "%ADD10C,0.5*%".toList,
   "D10*".toList, "X1000000Y1000000D02*".toList, "X2000000Y1000000D01*".toList]

/-- A format-spec-only file followed by a format-less file: used to show
`self.dec_d` leaking across parse calls. -/
def fileA7 : List (List Char) := ["%FSLAX23Y23*%".toList]

def fileB7 : List (List Char) := ["X100000D01*".toList]

/-- Aperture definition, circular-interpolation select, then a bare
aperture-select line: the `D1` prefix is read as a draw, but the
degenerate arc is skipped. -/
def c9file : List (List Char) :=
  ["%ADD10C,1*%".toList, "G02*".toList, "D10*".toList]

/-- An open self-intersecting figure-eight (bowtie) ring. -/
def fig8 : List (ℚ × ℚ) := [(0, 0), (2, 2), (2, 0), (0, 2)]

/-- An open unit square and its closed form. -/
def sq : List (ℚ × ℚ) := [(0, 0), (1, 0), (1, 1), (0, 1)]

def sqc : List (ℚ × ℚ) := [(0, 0), (1, 0), (1, 1), (0, 1), (0, 0)]

/-- A closed triangle (already valid). -/
def tri : List (ℚ × ℚ) := [(0, 0), (4, 0), (0, 4), (0, 0)]

/-! ## Shared helper lemmas -/

theorem lookup_map_val (l : List (Char × ℤ)) (f : ℤ → ℚ) (ax : Char) :
    (l.map (fun p => (p.1, f p.2))).lookup ax = (l.lookup ax).map f := by
  induction l with
  | nil => rfl
  | cons hd tl ih =>
    obtain ⟨k, v⟩ := hd
    simp only [List.map_cons, List.lookup]
    cases hax : ax == k <;> simp [ih]

/-- Everything accepted by `ccf_accept` satisfies its guard. -/
theorem ccf_accept_some {poly p : List (ℚ × ℚ)} (h : ccf_accept poly = some p) :
    ring_is_valid p = true ∧ p ≠ [] ∧ area_eps < polyArea p := by
  unfold ccf_accept at h
  split at h
  · cases Option.some.inj h
    assumption
  · exact Option.noConfusion h

/-- Everything accepted by `coords_close_and_fix` is valid, non-empty and
above the area threshold: the guard of src line 1126. -/
theorem ccf_some_inv {repair : List (ℚ × ℚ) → List (ℚ × ℚ)} {coords p : List (ℚ × ℚ)}
    (h : coords_close_and_fix repair coords = some p) :
    ring_is_valid p = true ∧ p ≠ [] ∧ area_eps < polyArea p := by
  unfold coords_close_and_fix at h
  split at h
  · exact Option.noConfusion h
  · exact ccf_accept_some h

/-! ## Claims -/

/-- C1 (counterexample): on the scenario-A command stream, `parse_gerber`
does NOT return exactly one stroke of width 0.5: it returns two stroke
items (the `D10*` line itself matches the draw pattern `D0?1` and emits a
zero-length stroke), and each stroke width is 0.25 (the aperture radius,
`params[0] / 2`), not the 0.5 diameter. -/
theorem c1_counterexample :
    (parse_gerber init_session (some scenarioA) 1).2 =
      Except.ok [GItem.stroke (0, 0) (0, 0) (1/4), GItem.stroke (10, -10) (20, -10) (1/4)]
    ∧ ¬ ([GItem.stroke ((0 : ℚ), (0 : ℚ)) (0, 0) (1/4),
          GItem.stroke (10, -10) (20, -10) (1/4)].length = 1)
    ∧ ¬ ((1 : ℚ)/4 = 1/2) := by
  with_unfolding_all decide

/-- C1 (amended): scenario A yields exactly two strokes — a zero-length
stroke at the origin from the `D10*` line and the segment from
(10, −10) to (20, −10) — each with stroke width 0.25 (half the declared
0.5 aperture diameter). -/
theorem c1_amended :
    (parse_gerber init_session (some scenarioA) 1).2 =
      Except.ok [GItem.stroke (0, 0) (0, 0) ((1/2 : ℚ)/2),
        GItem.stroke (10, -10) (20, -10) ((1/2 : ℚ)/2)] := by
  with_unfolding_all decide

/-- C2 (counterexample): an unreadable input file makes `parse_gerber`
propagate the `open` failure (there is no `try` around src line 2290); it
does not return an empty list. -/
theorem c2_counterexample :
    (parse_gerber init_session none 1).2 = Except.error () := rfl

/-- C2 (amended): on an unreadable input, the drill parse returns `[]`
without raising (its body is wrapped in `try ... except: return []`),
while the Gerber parse raises past the call boundary. -/
theorem c2_amended :
    (∀ (s : Session) (sf : ℚ), (parse_gerber s none sf).2 = Except.error ())
    ∧ (∀ s : Session, parse_drill s none = []) :=
  ⟨fun _ _ => rfl, fun _ => rfl⟩

/-- C7 (counterexample): the decimal-place count `self.dec_d` is instance
state that is not reset by `parse_gerber`; parsing a file whose format
spec sets 3 decimals changes the result of a later parse of a file that
has no format spec, so two runs of the same file differ depending on
earlier files. -/
theorem c7_counterexample :
    (parse_gerber init_session (some fileB7) 1).2 ≠
      (parse_gerber (parse_gerber init_session (some fileA7) 1).1 (some fileB7) 1).2 := by
  with_unfolding_all decide

/-- C7 (amended): except for `dec_d`, the per-call parser state is
effectively fresh (the aperture table is cleared and position/aperture
reset at the start of the call, src lines 2281-2283), so the parse result
depends only on the file content and the inherited decimal-place count. -/
theorem c7_amended (s1 s2 : Session) (file : Option (List (List Char))) (sf : ℚ)
    (h : s1.dec_d = s2.dec_d) :
    (parse_gerber s1 file sf).2 = (parse_gerber s2 file sf).2 := by
  cases file with
  | none => rfl
  | some lines => simp only [parse_gerber, h]

theorem c7_witness :
    (parse_gerber init_session (some fileB7) 1).2 =
      (parse_gerber
        { dec_d := 5, aperture_macros := [(10, 'C', [1])], current_pos := (3, 4),
          current_aperture := some 10 } (some fileB7) 1).2 :=
  c7_amended _ _ _ _ rfl

/-- C3: for every command line, an axis token with raw integer `n`
resolves to `n / 10 ^ dec_d * unitfactor`, and an absent axis token
resolves to the supplied current position, exactly (`vals.get` with the
state's position as default, src lines 2349-2356). -/
theorem c3_coordinate_resolution (dec_d : ℕ) (U cur : ℚ) (line : List Char) (ax : Char) :
    ((findallXYIJ line).reverse.lookup ax = none →
        vals_get (gerber_vals dec_d U line) ax cur = cur)
    ∧ (∀ n : ℤ, (findallXYIJ line).reverse.lookup ax = some n →
        vals_get (gerber_vals dec_d U line) ax cur = (n : ℚ) / 10 ^ dec_d * U) := by
  have key : (gerber_vals dec_d U line).reverse.lookup ax =
      ((findallXYIJ line).reverse.lookup ax).map (resolveCoord dec_d U) := by
    rw [gerber_vals, ← List.map_reverse, lookup_map_val]
  constructor
  · intro hnone
    rw [vals_get, key, hnone]
    rfl
  · intro n hsome
    rw [vals_get, key, hsome]
    rfl

theorem c3_witness :
    vals_get (gerber_vals 5 1 "X1000000D01*".toList) 'Y' 7 = 7
    ∧ vals_get (gerber_vals 5 1 "X1000000D01*".toList) 'X' 7 = ((1000000 : ℤ) : ℚ) / 10 ^ 5 * 1 :=
  ⟨(c3_coordinate_resolution 5 1 7 "X1000000D01*".toList 'Y').1 (by decide),
   (c3_coordinate_resolution 5 1 7 "X1000000D01*".toList 'X').2 1000000 (by decide)⟩

/-- C4: on angles normalized to [0, 360), the sweep of
`_create_arc_path` equals the spec's case split and always has the
requested rotational sense (non-positive and above −360 for clockwise,
non-negative and below 360 for counter-clockwise). -/
theorem c4_arc_sweep (a1 a2 : ℚ) (h1 : 0 ≤ a1 ∧ a1 < 360) (h2 : 0 ≤ a2 ∧ a2 < 360) :
    (sweep_angle true a1 a2 = if a2 ≤ a1 then a2 - a1 else a2 - a1 - 360)
    ∧ (sweep_angle false a1 a2 = if a1 ≤ a2 then a2 - a1 else a2 - a1 + 360)
    ∧ (-360 < sweep_angle true a1 a2 ∧ sweep_angle true a1 a2 ≤ 0)
    ∧ (0 ≤ sweep_angle false a1 a2 ∧ sweep_angle false a1 a2 < 360) := by
  obtain ⟨h1a, h1b⟩ := h1
  obtain ⟨h2a, h2b⟩ := h2
  refine ⟨?_, ?_, ?_, ?_⟩ <;> simp only [sweep_angle, if_true, if_false] <;>
    split_ifs <;> first | rfl | linarith | (constructor <;> linarith) | simp_all

theorem c4_witness :
    (sweep_angle true 90 45 = if (45 : ℚ) ≤ 90 then 45 - 90 else 45 - 90 - 360)
    ∧ (sweep_angle false 90 45 = if (90 : ℚ) ≤ 45 then 45 - 90 else 45 - 90 + 360)
    ∧ (-360 < sweep_angle true 90 45 ∧ sweep_angle true 90 45 ≤ 0)
    ∧ (0 ≤ sweep_angle false 90 45 ∧ sweep_angle false 90 45 < 360) :=
  c4_arc_sweep 90 45 ⟨by norm_num, by norm_num⟩ ⟨by norm_num, by norm_num⟩

/-- C5: a bare six-digit coordinate token on a line with no explicit
`FORMAT` declaration resolves with 4 decimal places, whatever the
otherwise-active decimal-place count `cur` is. -/
theorem c5_drill_six_digit (cur : ℕ) (uline : List Char) (neg : Bool) (ds : List Char)
    (hnofmt : findFormat uline = none) (h6 : ds.length = 6) :
    drill_format_update cur uline = cur
    ∧ drill_bare_value (drill_format_update cur uline) neg ds
        = (signedIntVal neg ds : ℚ) / 10 ^ (4 : ℕ) := by
  have h : drill_format_update cur uline = cur := by rw [drill_format_update, hnofmt]
  exact ⟨h, by simp [drill_bare_value, h6]⟩

theorem c5_witness :
    drill_format_update 2 "X123456".toList = 2
    ∧ drill_bare_value (drill_format_update 2 "X123456".toList) false "123456".toList
        = (signedIntVal false "123456".toList : ℚ) / 10 ^ (4 : ℕ) :=
  c5_drill_six_digit 2 "X123456".toList false "123456".toList (by decide) (by decide)

/-- C10: even when an explicit `FORMAT=I.D` declaration has set the
decimal-place count to `d`, a bare six-digit token still resolves with 4
decimal places: the heuristic of src lines 2546-2550 tests only the digit
count and overrides the declared format. -/
theorem c10_format_override (cur : ℕ) (uline : List Char) (d : ℕ) (neg : Bool) (ds : List Char)
    (hfmt : findFormat uline = some d) (h6 : ds.length = 6) :
    drill_format_update cur uline = d
    ∧ drill_bare_value (drill_format_update cur uline) neg ds
        = (signedIntVal neg ds : ℚ) / 10 ^ (4 : ℕ) := by
  have h : drill_format_update cur uline = d := by rw [drill_format_update, hfmt]
  exact ⟨h, by simp [drill_bare_value, h6]⟩

theorem c10_witness :
    drill_format_update 5 "FORMAT=2.3".toList = 3
    ∧ drill_bare_value (drill_format_update 5 "FORMAT=2.3".toList) false "123456".toList
        = (signedIntVal false "123456".toList : ℚ) / 10 ^ (4 : ℕ) :=
  c10_format_override 5 "FORMAT=2.3".toList 3 false "123456".toList (by decide) (by decide)

/-- C8: the closing/repair step is idempotent on an already-valid closed
ring with area above the threshold: it returns the ring unchanged, so a
second application returns the same polygon with no drift. -/
theorem c8_fix_idempotent (repair : List (ℚ × ℚ) → List (ℚ × ℚ)) (coords : List (ℚ × ℚ))
    (hv : ring_is_valid coords = true) (ha : area_eps < polyArea coords) :
    coords_close_and_fix repair coords = some coords
    ∧ (coords_close_and_fix repair coords).bind (coords_close_and_fix repair) = some coords := by
  have hcomp := hv
  simp only [ring_is_valid, Bool.and_eq_true, decide_eq_true_eq] at hcomp
  obtain ⟨⟨⟨hlen, hclosed⟩, _⟩, _⟩ := hcomp
  have hne : coords ≠ [] := by
    intro hh
    rw [hh] at hlen
    simp at hlen
  have hmain : coords_close_and_fix repair coords = some coords := by
    rw [coords_close_and_fix, if_neg (by omega), closeRing, if_pos hclosed,
      repairIfInvalid, if_pos hv, ccf_accept, if_pos ⟨hv, hne, ha⟩]
  exact ⟨hmain, by simp [hmain]⟩

theorem c8_witness :
    coords_close_and_fix (fun r => r) tri = some tri
    ∧ (coords_close_and_fix (fun r => r) tri).bind (coords_close_and_fix (fun r => r)) = some tri :=
  c8_fix_idempotent (fun r => r) tri (by with_unfolding_all decide)
    (by with_unfolding_all decide)

/-- C6: every polygon returned by the extractor is valid, non-empty and
has area above 1e-9 — given that the external `unary_union` preserves
these properties of its inputs (validity and non-emptiness for
multi-polygon components; all three for a single polygon) — and the
self-intersecting figure-eight ring is discarded by the closing/repair
step rather than returned. -/
theorem c6_extract_valid (repair : List (ℚ × ℚ) → List (ℚ × ℚ))
    (un : List (List (ℚ × ℚ)) → UnionResult) (rings : List (List (ℚ × ℚ)))
    (hsingle : ∀ ps q, un ps = UnionResult.single q →
      (∀ p ∈ ps, ring_is_valid p = true ∧ p ≠ [] ∧ area_eps < polyArea p) →
      ring_is_valid q = true ∧ q ≠ [] ∧ area_eps < polyArea q)
    (hmulti : ∀ ps qs, un ps = UnionResult.multi qs →
      (∀ p ∈ ps, ring_is_valid p = true ∧ p ≠ [] ∧ area_eps < polyArea p) →
      ∀ q ∈ qs, ring_is_valid q = true ∧ q ≠ []) :
    (∀ p ∈ extract_polygons_from_items repair un rings,
      ring_is_valid p = true ∧ p ≠ [] ∧ area_eps < polyArea p)
    ∧ coords_close_and_fix (fun r => r) fig8 = none := by
  have hacc : ∀ p ∈ accepted_polys repair rings,
      ring_is_valid p = true ∧ p ≠ [] ∧ area_eps < polyArea p := by
    intro p hp
    rw [accepted_polys] at hp
    obtain ⟨r, _, hr⟩ := List.mem_filterMap.mp hp
    exact ccf_some_inv hr
  constructor
  · intro p hp
    rw [extract_polygons_from_items] at hp
    split at hp
    · exact hacc p hp
    · have hfilInv : ∀ q ∈ (accepted_polys repair rings).filter
          (fun p => ring_is_valid p && !p.isEmpty),
          ring_is_valid q = true ∧ q ≠ [] ∧ area_eps < polyArea q :=
        fun q hq => hacc q (List.mem_filter.mp hq).1
      cases hu : un ((accepted_polys repair rings).filter
          (fun p => ring_is_valid p && !p.isEmpty)) with
      | empty =>
        rw [hu] at hp
        simp [union_finalize] at hp
      | single q =>
        rw [hu] at hp
        simp only [union_finalize, List.mem_singleton] at hp
        subst hp
        exact hsingle _ p hu hfilInv
      | multi qs =>
        rw [hu] at hp
        simp only [union_finalize] at hp
        obtain ⟨hmem, harea⟩ := List.mem_filter.mp hp
        obtain ⟨hval, hne⟩ := hmulti _ qs hu hfilInv p hmem
        exact ⟨hval, hne, by simpa using harea⟩
      | uerror =>
        rw [hu] at hp
        simp only [union_finalize] at hp
        exact hacc p hp
  · with_unfolding_all decide

theorem c6_witness :
    ring_is_valid sqc = true ∧ sqc ≠ [] ∧ area_eps < polyArea sqc :=
  (c6_extract_valid (fun r => r) (fun _ => UnionResult.uerror) [sq]
      (by intro ps q h _; cases h) (by intro ps qs h _; cases h)).1 sqc
    (by with_unfolding_all decide)

/-- C9 (counterexample): with circular interpolation active, a bare
`D10*` line selects aperture 10 but emits NOTHING: the draw triggered by
the `D1` prefix resolves a zero-radius arc (`I`/`J` default to 0), which
`_create_arc_path` skips, so no zero-length stroke is produced. -/
theorem c9_counterexample :
    (parse_gerber init_session (some c9file) 1).2 = Except.ok []
    ∧ containsKey (parse_gerber init_session (some c9file) 1).1.aperture_macros 10 = true := by
  with_unfolding_all decide

/-- C9 (amended): in linear interpolation mode, outside region mode, a
bare aperture-select line `D1d*` (codes 10-19) with that aperture defined
both selects the aperture and emits one zero-length stroke from the
current position to itself, because the draw pattern `D0?1` matches the
`D1` prefix of the code; in the circular modes the degenerate arc is
skipped instead. -/
theorem c9_amended (sf : ℚ) (st : GerberState) (c : Char)
    (hc : c ∈ ['0', '1', '2', '3', '4', '5', '6', '7', '8', '9'])
    (hlin : st.interp = Interp.linear)
    (hpoly : st.polygon_mode = false)
    (hap : containsKey st.aperture_macros (10 + (c.toNat - 48)) = true) :
    gerberStep sf st ['D', '1', c, '*'] =
      ({ st with current_aperture := some (10 + (c.toNat - 48)) },
       [GItem.stroke st.current_pos st.current_pos
          (get_aperture_width { st with current_aperture := some (10 + (c.toNat - 48)) } * sf)]) := by
  fin_cases hc <;>
    simp_all [gerberStep, stripL, startsWithL, hasSubL, searchDmode, searchDcode,
      findallXYIJ, gerber_vals, vals_get, applyADD, parseADD, parseNatL, grabInt,
      containsKey, Prod.mk.eta]

/-- A concrete state for the C9 witness: linear mode, aperture 13 defined
with diameter 2. -/
def st9 : GerberState :=
  { dec_d := 5, unitfactor := 1, interp := Interp.linear, aperture_macros := [(13, 'C', [2])],
    current_pos := (3, 4), current_aperture := none, polygon_mode := false,
    polygon_path := none }

theorem c9_witness :
    gerberStep 1 st9 ['D', '1', '3', '*'] =
      ({ st9 with current_aperture := some (10 + ('3'.toNat - 48)) },
       [GItem.stroke st9.current_pos st9.current_pos
          (get_aperture_width { st9 with current_aperture := some (10 + ('3'.toNat - 48)) } * 1)]) :=
  c9_amended 1 st9 '3' (by decide) rfl rfl (by decide)

end Gerber

